import Mathlib

/-!
Shallow embedding of `src/docker/handler.py` (OpenFan Z-Image Turbo RunPod
serverless handler).

The handler is a single Python function over duck-typed mappings.  We model:

* Python values that can appear in the `prompt` slot as `PyVal` (the code
  tests `if not prompt`, i.e. general Python falsiness, so the embedding keeps
  the dynamic type there);
* the `input` sub-mapping as a record of optional fields (absent key = `none`),
  mirroring `dict.get(key, default)`;
* the process-wide global `MODEL` as explicit state of type `Option String`
  threaded through `handler` (the source sets `MODEL = "loaded"`);
* each call to `generate_image` as a `GenCall` record of the exact arguments
  the loop passes; the body of `generate_image` and `image_to_base64`
  (PIL image synthesis, JPEG encoding, `random.randint`) is external
  library code with no algorithmic content in this repository, so the
  composed map from call arguments to the base64 string appended to
  `images` is a parameter `genEncode` of the embedding.  Every claim below
  is about the handler logic itself (validation, defaults, clamping, seed
  derivation, prompt concatenation, model-state transitions, call traces)
  and holds for every `genEncode`.
-/

namespace OpenFan

/-- A Python value as far as the handler's `prompt` field is concerned. -/
inductive PyVal where
  | pynone : PyVal
  | pybool : Bool → PyVal
  | pyint : Int → PyVal
  | pystr : String → PyVal
  deriving DecidableEq, Repr, Inhabited

/-- Python truthiness (`bool(v)`): `None`, `False`, `0` and `""` are falsy. -/
def pyTruthy : PyVal → Bool
  | PyVal.pynone => false
  | PyVal.pybool b => b
  | PyVal.pyint n => n != 0
  | PyVal.pystr s => s != ""

/-- Python `str(v)`, as used by the f-string `f"{char_block}, {prompt}"`. -/
def pyStr : PyVal → String
  | PyVal.pynone => "None"
  | PyVal.pybool b => if b then "True" else "False"
  | PyVal.pyint n => toString n
  | PyVal.pystr s => s

/-- The `input` sub-mapping of a request.  `none` means the key is absent,
so `input_data.get(key, default)` becomes `Option.getD`. -/
structure InputData where
  prompt : Option PyVal
  negative_prompt : Option String
  char_block : Option String
  width : Option Int
  height : Option Int
  seed : Option Int
  num_images : Option Int
  deriving DecidableEq, Repr

/-- The empty mapping `{}` used when the request has no `input` key. -/
def emptyInput : InputData :=
  { prompt := none, negative_prompt := none, char_block := none,
    width := none, height := none, seed := none, num_images := none }

/-- A request (`event`): possibly carrying an `input` sub-mapping. -/
structure Event where
  input : Option InputData
  deriving DecidableEq, Repr

/-- `event.get("input", {})`. -/
def extractInput (e : Event) : InputData :=
  e.input.getD emptyInput

/-- The arguments of one `generate_image(full_prompt, negative_prompt,
width, height, img_seed)` call made by the loop. -/
structure GenCall where
  prompt : PyVal
  negative_prompt : String
  width : Int
  height : Int
  seed : Option Int
  deriving DecidableEq, Repr, Inhabited

/-- A handler response: either `{"error": msg}` (no `images` key) or
`{"images": [...]}` (no `error` key). -/
inductive Response where
  | err : String → Response
  | ok : List String → Response
  deriving DecidableEq, Repr

/-- `load_model()`: sets the global `MODEL` to `"loaded"`
(placeholder body; the print is I/O-only). -/
def load_model (_model : Option String) : Option String :=
  some "loaded"

/-- Python `range(n)` over an `int` argument: empty when `n ≤ 0`. -/
def pyRange (n : Int) : List Int :=
  (List.range n.toNat).map Int.ofNat

/-- Result of one `handler` invocation: the returned mapping, the global
`MODEL` state after the call, and the trace of `generate_image` calls. -/
structure HResult where
  response : Response
  model : Option String
  calls : List GenCall
  deriving DecidableEq, Repr

/-- The body of `handler(event)` from `src/docker/handler.py`, with the
global `MODEL` passed in as `model` and returned in the result, and the
composition `image_to_base64 (generate_image ...)` abstracted as
`genEncode` (external placeholder/PIL code). -/
def handler (genEncode : GenCall → String) (model : Option String)
    (e : Event) : HResult :=
  let input_data := extractInput e
  let prompt := input_data.prompt.getD (PyVal.pystr "")
  let negative_prompt := input_data.negative_prompt.getD ""
  let char_block := input_data.char_block.getD ""
  let width := input_data.width.getD 1024
  let height := input_data.height.getD 1024
  let seed := input_data.seed
  let num_images := min (input_data.num_images.getD 1) 4
  if ¬ pyTruthy prompt then
    { response := Response.err "prompt is required", model := model, calls := [] }
  else
    let full_prompt :=
      if char_block ≠ "" then PyVal.pystr (char_block ++ ", " ++ pyStr prompt)
      else prompt
    let model2 := if model = none then load_model model else model
    let calls := (pyRange num_images).map (fun i =>
      { prompt := full_prompt, negative_prompt := negative_prompt,
        width := width, height := height,
        seed := seed.map (fun s => s + i) : GenCall })
    { response := Response.ok (calls.map genEncode), model := model2,
      calls := calls }

/-- An event reaches generation exactly when the read prompt is truthy. -/
def validEvent (e : Event) : Bool :=
  pyTruthy ((extractInput e).prompt.getD (PyVal.pystr ""))

/-- The `images` list of a success response (an error response has none). -/
def responseImages : Response → List String
  | Response.err _ => []
  | Response.ok imgs => imgs

/-- The module-level initial value of the global: `MODEL = None`. -/
def MODEL_initial : Option String := none

/-- The global `MODEL` after a process, started fresh, has handled the
given events in order. -/
def runAll (g : GenCall → String) (events : List Event) : Option String :=
  events.foldl (fun m e => (handler g m e).model) MODEL_initial

/-! Helper lemmas shared by the claim theorems. -/

theorem handler_model_step (g : GenCall → String) (m : Option String)
    (e : Event) :
    (handler g m e).model =
      if m = none ∧ validEvent e = true then some "loaded" else m := by
  unfold handler validEvent load_model
  by_cases hv : pyTruthy ((extractInput e).prompt.getD (PyVal.pystr "")) = true <;>
    rcases m with _ | x <;> simp [hv]

theorem foldl_model_some (g : GenCall → String) (es : List Event) (x : String) :
    es.foldl (fun m e => (handler g m e).model) (some x) = some x := by
  induction es with
  | nil => rfl
  | cons e es ih => rw [List.foldl_cons, handler_model_step]; simpa using ih

theorem foldl_model_from (g : GenCall → String) (es : List Event)
    (m : Option String) :
    es.foldl (fun m e => (handler g m e).model) m =
      if m = none then (if es.any validEvent then some "loaded" else none)
      else m := by
  induction es generalizing m with
  | nil => rcases m with _ | x <;> simp
  | cons e es ih =>
    rw [List.foldl_cons, handler_model_step, ih]
    rcases m with _ | x
    · by_cases hv : validEvent e = true <;> simp [hv, foldl_model_some]
    · simp [foldl_model_some]

/-! Concrete inputs used by witnesses and counterexamples. -/

/-- An arbitrary concrete stand-in for the external generate-and-encode step. -/
def gW : GenCall → String := fun _ => "img"

/-- A request with no `input` key at all. -/
def evNoInput : Event := { input := none }

/-- A valid request asking for `num_images = -1`. -/
def evNegOne : Event :=
  { input := some
      { emptyInput with prompt := some (PyVal.pystr "x"), num_images := some (-1) } }

/-- A valid request asking for `num_images = 7`. -/
def evSeven : Event :=
  { input := some
      { emptyInput with prompt := some (PyVal.pystr "x"), num_images := some 7 } }

/-- A valid request with `seed = 7` and `num_images = 3`. -/
def evSeed7 : Event :=
  { input := some
      { emptyInput with prompt := some (PyVal.pystr "cat"), seed := some 7, num_images := some 3 } }

/-- A valid request with `char_block = "A"` and `prompt = "B"`. -/
def evCharAB : Event :=
  { input := some
      { emptyInput with prompt := some (PyVal.pystr "B"), char_block := some "A" } }

/-- A valid request with a non-default `negative_prompt`. -/
def evNeg : Event :=
  { input := some
      { emptyInput with prompt := some (PyVal.pystr "cat"), negative_prompt := some "blurry" } }

/-- A valid request asking for `num_images = 0`. -/
def evZero : Event :=
  { input := some
      { emptyInput with prompt := some (PyVal.pystr "x"), num_images := some 0 } }

/-- A request whose `prompt` key holds the integer `0` (falsy, non-string). -/
def evFalsyInt : Event :=
  { input := some
      { emptyInput with prompt := some (PyVal.pyint 0) } }

/-- A valid request with all other fields defaulted. -/
def evPlain : Event :=
  { input := some
      { emptyInput with prompt := some (PyVal.pystr "cat") } }

/-- C1: when the `prompt` field of the extracted input is absent or the empty
string, `handler` returns exactly the error mapping
`{"error": "prompt is required"}` as a value (the `Response.err`
constructor carries no `images` list and no exception is involved: the
embedded handler is a total function), makes no generation calls, and
leaves the model state untouched. -/
theorem C1_missing_or_empty_prompt_error (g : GenCall → String)
    (m : Option String) (e : Event)
    (h : (extractInput e).prompt = none ∨
      (extractInput e).prompt = some (PyVal.pystr "")) :
    handler g m e =
      { response := Response.err "prompt is required", model := m,
        calls := [] } := by
  unfold handler
  rcases h with h | h <;> simp [h, pyTruthy]

theorem C1_missing_or_empty_prompt_error_witness :
    handler gW none evNoInput =
      { response := Response.err "prompt is required", model := none,
        calls := [] } :=
  C1_missing_or_empty_prompt_error gW none evNoInput (Or.inl rfl)

/-- C2 counterexample: for the valid request `evNegOne` (non-empty prompt,
`num_images = -1`) the response's `images` list has 0 entries while
`min(num_images, 4) = -1`, so the claimed equation
`len(response["images"]) == min(n, 4)` fails. -/
theorem C2_length_claim_counterexample :
    ((responseImages (handler gW none evNegOne).response).length : Int) ≠
      min ((extractInput evNegOne).num_images.getD 1) 4 := by
  decide

/-- C2 (amended): for every valid request, the number of entries in
`response["images"]` is `min(n, 4)` clamped below at zero (`Int.toNat`
performs exactly that clamp), where `n` is the requested `num_images` or 1
when the field is absent; for `n ≥ 0` this coincides with `min(n, 4)`. -/
theorem C2_images_length_clamped (g : GenCall → String) (m : Option String)
    (e : Event) (hv : validEvent e = true) :
    (responseImages (handler g m e).response).length =
      (min ((extractInput e).num_images.getD 1) 4).toNat := by
  unfold validEvent at hv
  unfold handler
  simp [hv, responseImages, pyRange]

theorem C2_images_length_clamped_witness :
    (responseImages (handler gW none evSeven).response).length = 4 := by
  rw [C2_images_length_clamped gW none evSeven (by decide)]
  decide

/-- C3: for a valid request supplying base seed `S`, the seed passed to
generation on iteration `i` (0-indexed) is `some (S + i)`; in particular
with `num_images = 3` the derived seeds are `S, S+1, S+2` in order. -/
theorem C3_seed_derivation (g : GenCall → String) (m : Option String)
    (e : Event) (S : Int) (hv : validEvent e = true)
    (hs : (extractInput e).seed = some S) :
    (∀ i : Nat, ∀ hi : i < (handler g m e).calls.length,
        ((handler g m e).calls.get ⟨i, hi⟩).seed = some (S + i))
    ∧ ((extractInput e).num_images.getD 1 = 3 →
        (handler g m e).calls.map GenCall.seed =
          [some S, some (S + 1), some (S + 2)]) := by
  unfold validEvent at hv
  unfold handler
  constructor
  · simp [hv, hs, pyRange]
  · intro hn
    simp [hv, hs, hn, pyRange, List.range_succ]

theorem C3_seed_derivation_witness :
    (handler gW none evSeed7).calls.map GenCall.seed =
      [some 7, some 8, some 9] := by
  have h := (C3_seed_derivation gW none evSeed7 7 (by decide) (by decide)).2
    (by decide)
  simpa using h

/-- C4: for every valid request whose prompt is the string `p` and whose
char block is the string `cb`, every generation call receives the full
prompt `cb ++ ", " ++ p` when `cb` is non-empty and `p` unchanged when `cb`
is empty; with `cb = "A"`, `p = "B"` this is `"A, B"`. -/
theorem C4_full_prompt_concat (g : GenCall → String) (m : Option String)
    (e : Event) (cb p : String) (hv : validEvent e = true)
    (hcb : (extractInput e).char_block.getD "" = cb)
    (hp : (extractInput e).prompt.getD (PyVal.pystr "") = PyVal.pystr p) :
    ∀ c ∈ (handler g m e).calls,
      c.prompt = PyVal.pystr (if cb ≠ "" then cb ++ ", " ++ p else p) := by
  unfold validEvent at hv
  rw [hp] at hv
  unfold handler
  by_cases hc : cb = "" <;> simp [hv, hcb, hp, hc, pyStr, pyRange] <;>
    rintro c x h1 h2 rfl <;> rfl

theorem C4_full_prompt_concat_witness :
    ((handler gW none evCharAB).calls.headI).prompt = PyVal.pystr "A, B" := by
  have h := C4_full_prompt_concat gW none evCharAB "A" "B" (by decide)
    (by decide) (by decide) ((handler gW none evCharAB).calls.headI)
    (by decide)
  rw [h]
  decide

/-- C5: the process-wide model handle starts uninitialized
(`MODEL_initial = none`); once set it is preserved unchanged by every
subsequent request (the load step is skipped unconditionally and nothing
resets it); a request reaching generation on the unset state sets it to
`some "loaded"`; and over any whole request sequence from a fresh process
the final state is `some "loaded"` exactly when some request reached
generation, `none` otherwise — hence it is set at most once, by the first
such request. -/
theorem C5_model_singleton (g : GenCall → String) (es : List Event)
    (m : Option String) (e : Event) :
    MODEL_initial = none
    ∧ (∀ x : String, m = some x → (handler g m e).model = some x)
    ∧ (m = none → validEvent e = true → (handler g m e).model = some "loaded")
    ∧ (runAll g es = if es.any validEvent then some "loaded" else none) := by
  refine ⟨rfl, ?_, ?_, ?_⟩
  · intro x hx
    rw [handler_model_step, hx]
    simp
  · intro hm hv
    rw [handler_model_step, hm]
    simp [hv]
  · unfold runAll MODEL_initial
    rw [foldl_model_from]
    simp

theorem C5_model_singleton_witness :
    (handler gW (some "loaded") evPlain).model = some "loaded"
    ∧ (handler gW none evPlain).model = some "loaded"
    ∧ runAll gW [evNoInput, evPlain] = some "loaded" :=
  ⟨(C5_model_singleton gW [] (some "loaded") evPlain).2.1 "loaded" rfl,
   (C5_model_singleton gW [] none evPlain).2.2.1 rfl (by decide),
   by rw [(C5_model_singleton gW [evNoInput, evPlain] none evPlain).2.2.2]
      decide⟩

/-- C6: on the error path (falsy prompt) the handler performs no generation
calls, triggers no model load, and returns the error with the model state
exactly as it was; conversely the model state changes only when it was
unset and the request reached generation, and then only to
`some "loaded"`. -/
theorem C6_error_path_no_side_effects (g : GenCall → String)
    (m : Option String) (e : Event) :
    (validEvent e = false →
      handler g m e =
        { response := Response.err "prompt is required", model := m,
          calls := [] })
    ∧ ((handler g m e).model ≠ m →
        m = none ∧ validEvent e = true ∧
          (handler g m e).model = some "loaded") := by
  constructor
  · intro hv
    unfold validEvent at hv
    unfold handler
    simp [hv]
  · intro hm
    rw [handler_model_step] at hm
    by_cases h1 : m = none ∧ validEvent e = true
    · exact ⟨h1.1, h1.2, by rw [handler_model_step, if_pos h1]⟩
    · rw [if_neg h1] at hm
      exact absurd rfl hm

theorem C6_error_path_no_side_effects_witness :
    (handler gW (some "loaded") evNoInput =
      { response := Response.err "prompt is required",
        model := some "loaded", calls := [] })
    ∧ ((none : Option String) = none ∧ validEvent evPlain = true ∧
        (handler gW none evPlain).model = some "loaded") :=
  ⟨(C6_error_path_no_side_effects gW (some "loaded") evNoInput).1 (by decide),
   (C6_error_path_no_side_effects gW none evPlain).2 (by decide)⟩

/-- C7: a request with no `input` key behaves as if the input were the
empty mapping: every field reads its documented default (prompt `""`,
negative_prompt `""`, char_block `""`, width 1024, height 1024, seed
absent, num_images 1), and consequently the missing-prompt error is
returned with no generation and no state change. -/
theorem C7_missing_input_defaults (g : GenCall → String) (m : Option String)
    (e : Event) (h : e.input = none) :
    extractInput e = emptyInput
    ∧ (extractInput e).prompt.getD (PyVal.pystr "") = PyVal.pystr ""
    ∧ (extractInput e).negative_prompt.getD "" = ""
    ∧ (extractInput e).char_block.getD "" = ""
    ∧ (extractInput e).width.getD 1024 = 1024
    ∧ (extractInput e).height.getD 1024 = 1024
    ∧ (extractInput e).seed = none
    ∧ (extractInput e).num_images.getD 1 = 1
    ∧ handler g m e =
        { response := Response.err "prompt is required", model := m,
          calls := [] } := by
  have hx : extractInput e = emptyInput := by simp [extractInput, h]
  refine ⟨hx, ?_, ?_, ?_, ?_, ?_, ?_, ?_, ?_⟩ <;>
    first
    | simp [hx, emptyInput]
    | · unfold handler
        simp [hx, emptyInput, pyTruthy]

theorem C7_missing_input_defaults_witness :
    extractInput evNoInput = emptyInput
    ∧ handler gW none evNoInput =
        { response := Response.err "prompt is required", model := none,
          calls := [] } :=
  ⟨(C7_missing_input_defaults gW none evNoInput rfl).1,
   (C7_missing_input_defaults gW none evNoInput rfl).2.2.2.2.2.2.2.2⟩

/-- C8: for every valid request, every generation call receives exactly the
`negative_prompt` value read from the input (default `""`), unmodified. -/
theorem C8_negative_prompt_threaded (g : GenCall → String)
    (m : Option String) (e : Event) (hv : validEvent e = true) :
    ∀ c ∈ (handler g m e).calls,
      c.negative_prompt = (extractInput e).negative_prompt.getD "" := by
  unfold validEvent at hv
  unfold handler
  simp only [hv]
  simp [pyRange]
  rintro c x h1 h2 rfl
  rfl

theorem C8_negative_prompt_threaded_witness :
    ((handler gW none evNeg).calls.headI).negative_prompt = "blurry" := by
  have h := C8_negative_prompt_threaded gW none evNeg (by decide)
    ((handler gW none evNeg).calls.headI) (by decide)
  rw [h]
  decide

/-- C9: a request with a non-empty prompt and `num_images ≤ 0` yields the
success response `{"images": []}` — not an error — because `min(n, 4)`
leaves the non-positive value intact and the loop over `range(n)` runs
zero times, making no generation calls. -/
theorem C9_nonpositive_num_images_empty_success (g : GenCall → String)
    (m : Option String) (e : Event) (hv : validEvent e = true)
    (hn : (extractInput e).num_images.getD 1 ≤ 0) :
    (handler g m e).response = Response.ok []
    ∧ (handler g m e).calls = [] := by
  unfold validEvent at hv
  unfold handler
  have hm : min ((extractInput e).num_images.getD 1) 4 ≤ 0 :=
    le_trans (min_le_left _ _) hn
  simp [hv, pyRange, Int.toNat_of_nonpos hm]

theorem C9_nonpositive_num_images_empty_success_witness :
    (handler gW none evZero).response = Response.ok []
    ∧ (handler gW none evZero).calls = [] :=
  C9_nonpositive_num_images_empty_success gW none evZero (by decide)
    (by decide)

/-- C10: the prompt check is Python falsiness, not string emptiness: every
falsy `PyVal` in the `prompt` slot (`None`, `False`, `0`, `""` — all four
are falsy under `pyTruthy`) makes the handler return the
`{"error": "prompt is required"}` response. -/
theorem C10_falsy_prompt_rejected (g : GenCall → String) (m : Option String)
    (e : Event) (v : PyVal) (hp : (extractInput e).prompt = some v)
    (hf : pyTruthy v = false) :
    (handler g m e).response = Response.err "prompt is required"
    ∧ pyTruthy PyVal.pynone = false
    ∧ pyTruthy (PyVal.pybool false) = false
    ∧ pyTruthy (PyVal.pyint 0) = false
    ∧ pyTruthy (PyVal.pystr "") = false := by
  refine ⟨?_, rfl, rfl, by decide, by decide⟩
  unfold handler
  simp [hp, hf]

theorem C10_falsy_prompt_rejected_witness :
    (handler gW none evFalsyInt).response = Response.err "prompt is required"
    ∧ pyTruthy PyVal.pynone = false
    ∧ pyTruthy (PyVal.pybool false) = false
    ∧ pyTruthy (PyVal.pyint 0) = false
    ∧ pyTruthy (PyVal.pystr "") = false :=
  C10_falsy_prompt_rejected gW none evFalsyInt (PyVal.pyint 0) rfl (by decide)

end OpenFan
